import Mathlib

/-!
Shallow embedding of `datalad/downloaders/base.py`: the `BaseDownloader`
class with its authenticated-access retry loop (`_access`), the atomic
download pipeline (`_download`), the constructor invariant (`__init__`),
and the exception taxonomy (`DownloadError`, `AccessDeniedError`).

External collaborators (session establishment, the protocol-specific
fetch, the interactive UI, the filesystem) are modelled as explicit
environments; the filesystem is an association list from paths to file
contents.  Python exceptions become an explicit `Exc` sum returned in
`Except`; Python's `AccessDeniedError <: DownloadError <: Exception`
subclassing is reflected by the predicates `Exc.isAccessDenied` and
`Exc.isDownloadError`.
-/

namespace Datalad

/-- Exception taxonomy.  `downloadError` and `accessDenied` mirror the two
classes defined at the bottom of `base.py`; `runtimeError`, `valueError`
and `notImplementedError` mirror the builtin Python exceptions raised by
the source; `otherError` stands for any other exception type. -/
inductive Exc where
  | downloadError (msg : String)
  | accessDenied (msg : String)
  | runtimeError (msg : String)
  | valueError (msg : String)
  | notImplementedError (msg : String)
  | otherError (msg : String)
  deriving DecidableEq, Repr

/-- Python `isinstance(e, AccessDeniedError)`. -/
def Exc.isAccessDenied : Exc → Bool
  | .accessDenied _ => true
  | _ => false

/-- Python `isinstance(e, DownloadError)` (`AccessDeniedError` is a
subclass of `DownloadError`). -/
def Exc.isDownloadError : Exc → Bool
  | .downloadError _ => true
  | .accessDenied _ => true
  | _ => false

/-- Message of `RuntimeError("Got to the %d'th iteration while trying to download %s")`. -/
def iterMsg (attempt : Nat) (url : String) : String :=
  "Got to the " ++ toString attempt ++ "th iteration while trying to download " ++ url

/-- Message of `DownloadError("Failed to download from %s given available credentials")`. -/
def failedCredsMsg (url : String) : String :=
  "Failed to download from " ++ url ++ " given available credentials"

/-- Message of the `DownloadError` raised when access is denied although the
authenticator claims no authentication is required. -/
def mustBeAvailableMsg (url : String) : String :=
  "Failed to download from " ++ url ++
    ", which must be available without authentication but access was denied"

/-- Message of the `AccessDeniedError` raised when the authentication
requirement is unknown (unconfigured data provider). -/
def unconfiguredMsg (url : String) : String :=
  "Access to " ++ url ++ " was denied but we do not know about this data provider. " ++
    "You would need to configure data provider authentication using TODO "

/-- Message of `DownloadError("File %s already exists")`. -/
def alreadyExistsMsg (filepath : String) : String :=
  "File " ++ filepath ++ " already exists"

/-- Message of `DownloadError("Downloaded size %d differs from original %d")`. -/
def sizeMismatchMsg (downloadedSize targetSize : Nat) : String :=
  "Downloaded size " ++ toString downloadedSize ++ " differs from original " ++
    toString targetSize

/-- Message of the `ValueError` raised by `BaseDownloader.__init__` when an
authenticator is supplied without a credential. -/
def initValueErrorMsg : String :=
  "Both authenticator and credentials must be provided. Got only authenticator"

/-- A credential: opaque secret material (`Credential` in the source is an
external collaborator; only its presence matters here). -/
structure Credential where
  name : String
  deriving DecidableEq, Repr

/-- The view of an `Authenticator` instance that `base.py` consumes:
its `requires_authentication` attribute (a Python `True`/`False`/`None`
tri-state, hence `Option Bool`) and whether it carries a truthy
`failure_re` attribute (the optional in-band failure-detection
capability probed by `_download`). -/
structure AuthSpec where
  requires_authentication : Option Bool
  failure_re : Bool
  deriving DecidableEq, Repr

/-- The state `BaseDownloader.__init__` establishes: the `credential` and
`authenticator` attributes. -/
structure BaseDownloader where
  credential : Option Credential
  authenticator : Option AuthSpec
  deriving DecidableEq, Repr

namespace BaseDownloader

/-- `BaseDownloader.__init__(credential, authenticator)` given the class
attribute `_DEFAULT_AUTHENTICATOR` (whose instantiation is
`defaultAuthenticator`): if no authenticator was passed and the class has a
default, the default is instantiated; an authenticator without a credential
raises `ValueError`. -/
def init (credential : Option Credential) (authenticator : Option AuthSpec)
    (defaultAuthenticator : Option AuthSpec) : Except Exc BaseDownloader :=
  let authenticator := match authenticator with
    | none => defaultAuthenticator
    | some a => some a
  match authenticator with
  | some a =>
      match credential with
      | none => .error (.valueError initValueErrorMsg)
      | some c => .ok ⟨some c, some a⟩
  | none => .ok ⟨credential, none⟩

/-- `needs_authentication = authenticator and authenticator.requires_authentication`:
`none` covers both "no authenticator" (Python `None`) and a `None`-valued
`requires_authentication` attribute — the two cases the source code treats
identically in its final `else` branch. -/
def needs_authentication (dl : BaseDownloader) : Option Bool :=
  match dl.authenticator with
  | none => none
  | some a => a.requires_authentication

end BaseDownloader

/-- Outcome of one invocation of the wrapped `method(url, **kwargs)`:
either a result or a raised exception (Python exceptions other than
`AccessDeniedError` and `DownloadError` propagate out of the loop; both
are represented by `raised`). -/
inductive MethodOutcome where
  | success (r : Nat)
  | raised (e : Exc)
  deriving DecidableEq, Repr

/-- Whether the method outcome is a raised `AccessDeniedError`. -/
def MethodOutcome.isDenial : MethodOutcome → Bool
  | .raised e => e.isAccessDenied
  | .success _ => false

/-- Environment of one `_access` call: the URL, the behaviour of the
external session-establishment step (`wouldReuse a` says whether
`_establish_session(url, allow_old=True)` would hand back an old session
on attempt `a`), the wrapped method's outcome per attempt, and the
interactive `ui.yesno` answer per attempt. -/
structure AccessEnv where
  url : String
  wouldReuse : Nat → Bool
  methodResult : Nat → MethodOutcome
  yesnoAnswer : Nat → Bool

/-- Observable events of an `_access` run. -/
inductive AEvent where
  | establish (usedOld : Bool)
  | invoke (attempt : Nat)
  | prompt (answer : Bool)
  | enterNew
  deriving DecidableEq, Repr

/-- The `while True` loop of `BaseDownloader._access`.  `fuel` is a
structural-recursion bound only; the source's own bound is the `attempt`
counter checked against 20, and every call made below keeps the invariant
`fuel ≥ 21 - attempt`, so the `fuel = 0` branch is unreachable from
`_access` (which starts with `fuel = 21`, `attempt = 0`).  Returns the
result (or raised exception) together with the event trace from this
point on.  The source's `assert(not used_old_session)` holds by
construction: `usedOld = allowOld && wouldReuse`. -/
def accessLoop (env : AccessEnv) (na : Option Bool) :
    Nat → Nat → Bool → Except Exc Nat × List AEvent
  | 0, attempt, _ => (.error (.runtimeError (iterMsg (attempt + 1) env.url)), [])
  | fuel + 1, attempt, allowOld =>
    let a := attempt + 1
    if a > 20 then
      (.error (.runtimeError (iterMsg a env.url)), [])
    else
      let usedOld := allowOld && env.wouldReuse a
      let pre := [AEvent.establish usedOld, AEvent.invoke a]
      match env.methodResult a with
      | .success r => (.ok r, pre)
      | .raised e =>
        if e.isAccessDenied then
          match na with
          | some true =>
            if usedOld then
              -- reused session: force a fresh one and retry
              let res := accessLoop env na fuel a false
              (res.1, pre ++ res.2)
            else if env.yesnoAnswer a then
              -- fresh session: ask for new credentials, retry fresh
              let res := accessLoop env na fuel a false
              (res.1, pre ++ [AEvent.prompt true, AEvent.enterNew] ++ res.2)
            else
              (.error (.downloadError (failedCredsMsg env.url)),
               pre ++ [AEvent.prompt false])
          | some false =>
            (.error (.downloadError (mustBeAvailableMsg env.url)), pre)
          | none =>
            (.error (.accessDenied (unconfiguredMsg env.url)), pre)
        else
          -- `except DownloadError: raise`; other exceptions also propagate
          (.error e, pre)

/-- `BaseDownloader._access(method, url, allow_old_session=...)`. -/
def BaseDownloader._access (dl : BaseDownloader) (env : AccessEnv)
    (allow_old_session : Bool) : Except Exc Nat × List AEvent :=
  accessLoop env dl.needs_authentication 21 0 allow_old_session

example :
    (BaseDownloader._access ⟨some ⟨"c"⟩, some ⟨some true, false⟩⟩
      ⟨"http://x", fun _ => true, fun a => if a ≤ 2 then .raised (.accessDenied "d")
        else .success 7, fun _ => true⟩ true).1 = .ok 7 := rfl

/-! ## Filesystem model for `_download` -/

/-- A filesystem: association list from file paths to contents. -/
def FS := List (String × String)

/-- `os.path.exists` / reading: look a path up. -/
def fsLookup : FS → String → Option String
  | [], _ => none
  | (q, c) :: rest, p => if q = p then some c else fsLookup rest p

/-- `os.unlink`: remove every entry at a path. -/
def fsRemove : FS → String → FS
  | [], _ => []
  | (q, c) :: rest, p => if q = p then fsRemove rest p else (q, c) :: fsRemove rest p

/-- `open(p, "wb")` followed by writing `c`: create or truncate-and-write. -/
def fsSet (fs : FS) (p c : String) : FS := (p, c) :: fsRemove fs p

/-- `os.rename(src, dst)` (atomic rename; `src` always exists where the
source calls it). -/
def fsRename (fs : FS) (src dst : String) : FS :=
  match fsLookup fs src with
  | none => fs
  | some c => fsSet (fsRemove fs src) dst c

/-- `os.path.exists`. -/
def fileExists (fs : FS) (p : String) : Bool := (fsLookup fs p).isSome

/-- `BaseDownloader._get_temp_download_filename`. -/
def _get_temp_download_filename (filepath : String) : String :=
  filepath ++ ".datalad-download-temp"

/-- Outcome of calling the protocol-specific `downloader(fp, pbar)`
callable: it returns normally or raises. -/
inductive FetchOutcome where
  | ok
  | raised (e : Exc)
  deriving DecidableEq, Repr

/-- What `_get_download_details(url)` hands back, together with the
behaviour of the returned `downloader` callable: the bytes it writes into
the sink before finishing or raising, and whether it raises. -/
structure DownloadDetails where
  written : String
  fetchOutcome : FetchOutcome
  target_size : Option Nat
  url_filename : String
  deriving DecidableEq, Repr

/-- Environment of one `_download` call: the (possibly raising) result of
`_get_download_details`, the outcome of the external
`authenticator.check_for_auth_failure(body, msg)` call on the downloaded
body (`none` = no in-band failure detected, `some e` = it raised `e`),
and the set of existing directories (for `os.path.isdir`). -/
structure DownloadEnv where
  details : Except Exc DownloadDetails
  authCheck : Option Exc
  dirs : List String

/-- Observable collaborator events of a `_download` run. -/
inductive DEvent where
  | detailsRequested
  | fetchInvoked
  deriving DecidableEq, Repr

/-- Resolution of the final path from the `path` argument and the
filename derived from the URL (lines 185–193 of `base.py`). -/
def resolveFilepath (dirs : List String) (path : Option String)
    (url_filename : String) : String :=
  match path with
  | some p => if dirs.contains p then p ++ "/" ++ url_filename else p
  | none => url_filename

/-- The in-band auth-failure detection condition of `_download` (lines
221–229): an authenticator is attached, the body is small, and the
authenticator has a truthy `failure_re`; in that case the external
`check_for_auth_failure` outcome decides. -/
def inbandCheck (auth : Option AuthSpec) (downloadedSize : Nat)
    (authCheck : Option Exc) : Option Exc :=
  match auth with
  | some a => if downloadedSize < 10000 && a.failure_re then authCheck else none
  | none => none

/-- The `try` block of `_download` (lines 202–240): write the temp file,
run the in-band auth-failure check and the size check, then atomically
rename over the final path.  Returns the result and the filesystem. -/
def downloadTryBody (auth : Option AuthSpec) (env : DownloadEnv)
    (d : DownloadDetails) (filepath temp_filepath : String) (fs : FS) :
    Except Exc String × FS :=
  let fs1 := fsSet fs temp_filepath d.written
  match d.fetchOutcome with
  | .raised e => (.error e, fs1)
  | .ok =>
    let downloaded_size := d.written.length
    match inbandCheck auth downloaded_size env.authCheck with
    | some e => (.error e, fs1)
    | none =>
      -- `if target_size and target_size != downloaded_size:` —
      -- Python truthiness: a `None` or `0` target size skips the check
      match d.target_size with
      | some t =>
        if t ≠ 0 ∧ t ≠ downloaded_size then
          (.error (.downloadError (sizeMismatchMsg downloaded_size t)), fs1)
        else
          (.ok filepath, fsRename fs1 temp_filepath filepath)
      | none => (.ok filepath, fsRename fs1 temp_filepath filepath)

/-- `BaseDownloader._download(url, path=None, overwrite=False)`: resolve
the download details and the final path, refuse to clobber an existing
file unless `overwrite`, then run the `try` body with its
`except AccessDeniedError: raise / except Exception: raise DownloadError`
wrapping and its `finally` temp-file cleanup.  Returns the result, the
final filesystem, and the trace of collaborator events. -/
def BaseDownloader._download (dl : BaseDownloader) (env : DownloadEnv)
    (path : Option String) (overwrite : Bool) (fs : FS) :
    Except Exc String × FS × List DEvent :=
  match env.details with
  | .error e => (.error e, fs, [DEvent.detailsRequested])
  | .ok d =>
    let filepath := resolveFilepath env.dirs path d.url_filename
    if fileExists fs filepath && !overwrite then
      (.error (.downloadError (alreadyExistsMsg filepath)), fs,
       [DEvent.detailsRequested])
    else
      let temp_filepath := _get_temp_download_filename filepath
      let body := downloadTryBody dl.authenticator env d filepath temp_filepath fs
      let res : Except Exc String :=
        match body.1 with
        | .ok v => .ok v
        | .error e => if e.isAccessDenied then .error e else .error (.downloadError "")
      let fs2 := if fileExists body.2 temp_filepath
        then fsRemove body.2 temp_filepath else body.2
      (res, fs2, [DEvent.detailsRequested, DEvent.fetchInvoked])

example :
    (BaseDownloader._download ⟨none, none⟩
      ⟨.ok ⟨"hello", .ok, some 5, "data.bin"⟩, none, []⟩ none false []).1
      = .ok "data.bin" := rfl

example :
    (BaseDownloader._download ⟨none, none⟩
      ⟨.ok ⟨"hello", .ok, some 5, "data.bin"⟩, none, []⟩ none false []).2.1
      = [("data.bin", "hello")] := rfl

/-! ## Basic filesystem lemmas -/

theorem fsLookup_fsRemove (fs : FS) (p q : String) :
    fsLookup (fsRemove fs p) q = if p = q then none else fsLookup fs q := by
  induction fs with
  | nil => simp [fsRemove, fsLookup]
  | cons kv rest ih =>
    obtain ⟨k, c⟩ := kv
    by_cases hk : k = p
    · subst hk
      rw [show fsRemove ((k, c) :: rest) k = fsRemove rest k from by simp [fsRemove]]
      rw [ih]
      by_cases hq : k = q
      · simp [hq]
      · simp [fsLookup, hq]
    · rw [show fsRemove ((k, c) :: rest) p = (k, c) :: fsRemove rest p from by
        simp [fsRemove, hk]]
      by_cases hq : k = q
      · subst hq
        have hpq : ¬ p = k := fun h => hk h.symm
        simp [fsLookup, ih, hpq]
      · simp [fsLookup, hq, ih]

theorem fsLookup_fsSet (fs : FS) (p c q : String) :
    fsLookup (fsSet fs p c) q = if p = q then some c else fsLookup fs q := by
  by_cases h : p = q <;> simp [fsSet, fsLookup, fsLookup_fsRemove, h]

theorem temp_ne_filepath (p : String) : _get_temp_download_filename p ≠ p := by
  intro h
  have hlen := congrArg String.length h
  rw [_get_temp_download_filename, String.length_append] at hlen
  have h22 : ".datalad-download-temp".length = 22 := rfl
  omega

/-- On every raising path of the `try` body, the filesystem holds exactly
the original files plus the (partially) written temp file. -/
theorem downloadTryBody_error (auth : Option AuthSpec) (env : DownloadEnv)
    (d : DownloadDetails) (filepath temp_filepath : String) (fs : FS) (e : Exc)
    (h : (downloadTryBody auth env d filepath temp_filepath fs).1 = .error e) :
    (downloadTryBody auth env d filepath temp_filepath fs).2
      = fsSet fs temp_filepath d.written := by
  simp only [downloadTryBody] at h ⊢
  repeat' split at h
  all_goals simp_all

/-- On the success path of the `try` body, the result is the final path
and the filesystem is the written temp file renamed onto the final path. -/
theorem downloadTryBody_ok (auth : Option AuthSpec) (env : DownloadEnv)
    (d : DownloadDetails) (filepath temp_filepath : String) (fs : FS) (v : String)
    (h : (downloadTryBody auth env d filepath temp_filepath fs).1 = .ok v) :
    v = filepath ∧
    (downloadTryBody auth env d filepath temp_filepath fs).2
      = fsRename (fsSet fs temp_filepath d.written) temp_filepath filepath := by
  simp only [downloadTryBody] at h ⊢
  repeat' split at h
  all_goals simp_all
  all_goals (split <;> simp_all)

/-! ## Claim theorems -/

/-- Claim C1: for every call to the download operation, if it returns
successfully the destination file exists and the temporary file (final
path plus the fixed suffix) does not; and on every failure path reached
after the details resolution and the pre-existence check (size mismatch,
in-band auth-failure detection, fetch exception), the destination file is
never created or overwritten and the temporary file is removed. -/
theorem download_atomic_commit (dl : BaseDownloader) (env : DownloadEnv)
    (path : Option String) (overwrite : Bool) (fs : FS) :
    (∀ fp, (BaseDownloader._download dl env path overwrite fs).1 = .ok fp →
       fileExists (BaseDownloader._download dl env path overwrite fs).2.1 fp = true ∧
       fileExists (BaseDownloader._download dl env path overwrite fs).2.1
         (_get_temp_download_filename fp) = false) ∧
    (∀ d, env.details = .ok d →
       (fileExists fs (resolveFilepath env.dirs path d.url_filename) && !overwrite) = false →
       ∀ e, (BaseDownloader._download dl env path overwrite fs).1 = .error e →
         fsLookup (BaseDownloader._download dl env path overwrite fs).2.1
             (resolveFilepath env.dirs path d.url_filename)
           = fsLookup fs (resolveFilepath env.dirs path d.url_filename) ∧
         fileExists (BaseDownloader._download dl env path overwrite fs).2.1
           (_get_temp_download_filename (resolveFilepath env.dirs path d.url_filename))
           = false) := by
  constructor
  · intro fp hok
    unfold BaseDownloader._download at hok ⊢
    obtain ⟨dres, hdet⟩ : ∃ x, env.details = x := ⟨_, rfl⟩
    rw [hdet] at hok ⊢
    cases dres with
    | error e => simp at hok
    | ok d =>
      dsimp only at hok ⊢
      by_cases hex :
          (fileExists fs (resolveFilepath env.dirs path d.url_filename) && !overwrite) = true
      · rw [if_pos hex] at hok
        simp at hok
      · rw [if_neg hex] at hok ⊢
        obtain ⟨bres, hbody⟩ : ∃ x, (downloadTryBody dl.authenticator env d
            (resolveFilepath env.dirs path d.url_filename)
            (_get_temp_download_filename (resolveFilepath env.dirs path d.url_filename))
            fs).1 = x := ⟨_, rfl⟩
        rw [hbody] at hok ⊢
        cases bres with
        | error e' =>
          dsimp only at hok
          split at hok <;> simp at hok
        | ok v =>
          obtain ⟨hv, hfs⟩ := downloadTryBody_ok _ _ _ _ _ _ _ hbody
          dsimp only at hok ⊢
          injection hok with hfp
          subst hfp
          subst hv
          set filepath := resolveFilepath env.dirs path d.url_filename with hfpdef
          set temp := _get_temp_download_filename filepath with htempdef
          have htemp_ne : temp ≠ filepath := temp_ne_filepath filepath
          have hlookup_temp : fsLookup (fsSet fs temp d.written) temp = some d.written := by
            rw [fsLookup_fsSet]
            simp
          have hren : fsRename (fsSet fs temp d.written) temp filepath
              = fsSet (fsRemove (fsSet fs temp d.written) temp) filepath d.written := by
            rw [fsRename, hlookup_temp]
          rw [hfs, hren]
          have hnotemp : fileExists
              (fsSet (fsRemove (fsSet fs temp d.written) temp) filepath d.written) temp
              = false := by
            rw [fileExists, fsLookup_fsSet]
            simp [htemp_ne.symm, fsLookup_fsRemove]
          rw [hnotemp]
          simp only [Bool.false_eq_true, if_false]
          constructor
          · rw [fileExists, fsLookup_fsSet]
            simp
          · exact hnotemp
  · intro d hdet hex e herr
    unfold BaseDownloader._download at herr ⊢
    rw [hdet] at herr ⊢
    dsimp only at herr ⊢
    rw [if_neg (by simp [hex])] at herr ⊢
    set filepath := resolveFilepath env.dirs path d.url_filename with hfpdef
    set temp := _get_temp_download_filename filepath with htempdef
    have htemp_ne : temp ≠ filepath := temp_ne_filepath filepath
    obtain ⟨bres, hbody⟩ : ∃ x, (downloadTryBody dl.authenticator env d
        filepath temp fs).1 = x := ⟨_, rfl⟩
    rw [hbody] at herr ⊢
    cases bres with
    | ok v =>
      dsimp only at herr
      simp at herr
    | error e' =>
      have hfs := downloadTryBody_error _ _ _ _ _ _ _ hbody
      rw [hfs]
      have hextemp : fileExists (fsSet fs temp d.written) temp = true := by
        rw [fileExists, fsLookup_fsSet]
        simp
      rw [hextemp]
      simp only [if_true]
      constructor
      · rw [fsLookup_fsRemove, fsLookup_fsSet]
        simp [htemp_ne]
      · rw [fileExists, fsLookup_fsRemove]
        simp

/-! ## Step lemmas for the access retry loop -/

/-- One loop step, authentication requirement unknown (`None`): a denial
raises the unconfigured-provider `AccessDeniedError`; no retry, no prompt. -/
theorem accessLoop_denied_unknown (env : AccessEnv) (fuel attempt : Nat)
    (allowOld : Bool) (e : Exc) (h20 : attempt + 1 ≤ 20)
    (hm : env.methodResult (attempt + 1) = .raised e) (hd : e.isAccessDenied = true) :
    accessLoop env none (fuel + 1) attempt allowOld
      = (.error (.accessDenied (unconfiguredMsg env.url)),
         [AEvent.establish (allowOld && env.wouldReuse (attempt + 1)),
          AEvent.invoke (attempt + 1)]) := by
  have hn : ¬ (attempt + 1 > 20) := by omega
  simp [accessLoop, hn, hm, hd]

/-- One loop step, authentication requirement known `False`: a denial is a
contract violation and raises `DownloadError`; no retry, no prompt. -/
theorem accessLoop_denied_false (env : AccessEnv) (fuel attempt : Nat)
    (allowOld : Bool) (e : Exc) (h20 : attempt + 1 ≤ 20)
    (hm : env.methodResult (attempt + 1) = .raised e) (hd : e.isAccessDenied = true) :
    accessLoop env (some false) (fuel + 1) attempt allowOld
      = (.error (.downloadError (mustBeAvailableMsg env.url)),
         [AEvent.establish (allowOld && env.wouldReuse (attempt + 1)),
          AEvent.invoke (attempt + 1)]) := by
  have hn : ¬ (attempt + 1 > 20) := by omega
  simp [accessLoop, hn, hm, hd]

/-- One loop step, authentication required, session was reused: retry with
session reuse disabled; no prompt is emitted in this step. -/
theorem accessLoop_denied_reused (env : AccessEnv) (fuel attempt : Nat)
    (e : Exc) (h20 : attempt + 1 ≤ 20)
    (hm : env.methodResult (attempt + 1) = .raised e) (hd : e.isAccessDenied = true)
    (hreuse : env.wouldReuse (attempt + 1) = true) :
    accessLoop env (some true) (fuel + 1) attempt true
      = ((accessLoop env (some true) fuel (attempt + 1) false).1,
         [AEvent.establish true, AEvent.invoke (attempt + 1)]
           ++ (accessLoop env (some true) fuel (attempt + 1) false).2) := by
  have hn : ¬ (attempt + 1 > 20) := by omega
  simp [accessLoop, hn, hm, hd, hreuse]

/-- One loop step, authentication required, fresh session, user declines
the prompt: terminal `DownloadError`; exactly one prompt is emitted. -/
theorem accessLoop_denied_fresh_decline (env : AccessEnv) (fuel attempt : Nat)
    (allowOld : Bool) (e : Exc) (h20 : attempt + 1 ≤ 20)
    (hm : env.methodResult (attempt + 1) = .raised e) (hd : e.isAccessDenied = true)
    (hfresh : (allowOld && env.wouldReuse (attempt + 1)) = false)
    (hno : env.yesnoAnswer (attempt + 1) = false) :
    accessLoop env (some true) (fuel + 1) attempt allowOld
      = (.error (.downloadError (failedCredsMsg env.url)),
         [AEvent.establish false, AEvent.invoke (attempt + 1),
          AEvent.prompt false]) := by
  have hn : ¬ (attempt + 1 > 20) := by omega
  simp [accessLoop, hn, hm, hd, hfresh, hno]

/-- One loop step, authentication required, fresh session, user accepts
the prompt: credentials are re-entered and the loop retries with a fresh
session; exactly one prompt is emitted. -/
theorem accessLoop_denied_fresh_accept (env : AccessEnv) (fuel attempt : Nat)
    (allowOld : Bool) (e : Exc) (h20 : attempt + 1 ≤ 20)
    (hm : env.methodResult (attempt + 1) = .raised e) (hd : e.isAccessDenied = true)
    (hfresh : (allowOld && env.wouldReuse (attempt + 1)) = false)
    (hyes : env.yesnoAnswer (attempt + 1) = true) :
    accessLoop env (some true) (fuel + 1) attempt allowOld
      = ((accessLoop env (some true) fuel (attempt + 1) false).1,
         [AEvent.establish false, AEvent.invoke (attempt + 1),
          AEvent.prompt true, AEvent.enterNew]
           ++ (accessLoop env (some true) fuel (attempt + 1) false).2) := by
  have hn : ¬ (attempt + 1 > 20) := by omega
  simp [accessLoop, hn, hm, hd, hfresh, hyes]

/-- With an unknown authentication requirement the loop never reaches the
credential re-entry branch: no `enterNew` event can occur. -/
theorem accessLoop_unknown_no_enterNew (env : AccessEnv) (fuel attempt : Nat)
    (allowOld : Bool) :
    AEvent.enterNew ∉ (accessLoop env none fuel attempt allowOld).2 := by
  cases fuel with
  | zero => simp [accessLoop]
  | succ fuel =>
    simp only [accessLoop]
    repeat' split
    all_goals simp

/-! ## The 20-attempt cap -/

/-- Number of method invocations recorded in a trace. -/
def countInvokes (tr : List AEvent) : Nat :=
  (tr.filter fun ev => match ev with | AEvent.invoke _ => true | _ => false).length

theorem countInvokes_append (a b : List AEvent) :
    countInvokes (a ++ b) = countInvokes a + countInvokes b := by
  simp [countInvokes, List.filter_append]

/-- From a loop state with counter `attempt`, at most `20 - attempt`
further method invocations happen. -/
theorem countInvokes_accessLoop_le (env : AccessEnv) (na : Option Bool) :
    ∀ fuel attempt allowOld,
      countInvokes (accessLoop env na fuel attempt allowOld).2 ≤ 20 - attempt := by
  intro fuel
  induction fuel with
  | zero => intro attempt allowOld; simp [accessLoop, countInvokes]
  | succ fuel ih =>
    intro attempt allowOld
    by_cases h20 : attempt + 1 > 20
    · simp [accessLoop, h20, countInvokes]
    · have hrec := ih (attempt + 1) false
      cases hm : env.methodResult (attempt + 1) with
      | success r =>
        simp [accessLoop, h20, hm, countInvokes]
        omega
      | raised e =>
        by_cases hd : e.isAccessDenied = true
        · cases na with
          | none =>
            simp [accessLoop, h20, hm, hd, countInvokes]
            omega
          | some b =>
            cases b with
            | false =>
              simp [accessLoop, h20, hm, hd, countInvokes]
              omega
            | true =>
              by_cases hu : (allowOld && env.wouldReuse (attempt + 1)) = true
              · have hO : allowOld = true := by cases allowOld <;> simp_all
                have hW : env.wouldReuse (attempt + 1) = true := by
                  cases hw : env.wouldReuse (attempt + 1) <;> simp_all
                subst hO
                rw [accessLoop_denied_reused env fuel attempt e (by omega) hm hd hW]
                simp only [countInvokes_append]
                have h1 : countInvokes
                    [AEvent.establish true, AEvent.invoke (attempt + 1)] = 1 := rfl
                omega
              · by_cases hy : env.yesnoAnswer (attempt + 1) = true
                · rw [accessLoop_denied_fresh_accept env fuel attempt allowOld e
                    (by omega) hm hd (by simp_all) hy]
                  simp only [countInvokes_append]
                  have h1 : countInvokes
                      [AEvent.establish false, AEvent.invoke (attempt + 1),
                       AEvent.prompt true, AEvent.enterNew] = 1 := rfl
                  omega
                · rw [accessLoop_denied_fresh_decline env fuel attempt allowOld e
                    (by omega) hm hd (by simp_all) (by simp_all)]
                  simp [countInvokes]
                  omega
        · simp [accessLoop, h20, hm, hd, countInvokes]
          omega

/-- Under an always-denying method and an always-accepting user, the loop
still terminates: it reaches the cap and raises the internal
`RuntimeError` naming the 21st iteration. -/
theorem accessLoop_alwaysDeny (env : AccessEnv)
    (hden : ∀ a, (env.methodResult a).isDenial = true)
    (hyes : ∀ a, env.yesnoAnswer a = true) :
    ∀ f, f ≤ 20 → ∀ allowOld,
      (accessLoop env (some true) (f + 1) (20 - f) allowOld).1
        = .error (.runtimeError (iterMsg 21 env.url)) := by
  intro f
  induction f with
  | zero =>
    intro _ allowOld
    simp [accessLoop]
  | succ f ih =>
    intro hf allowOld
    have ha : 20 - (f + 1) + 1 = 20 - f := by omega
    obtain ⟨e, he, hd⟩ : ∃ e, env.methodResult (20 - (f + 1) + 1) = .raised e ∧
        e.isAccessDenied = true := by
      have := hden (20 - (f + 1) + 1)
      cases hm : env.methodResult (20 - (f + 1) + 1) with
      | success r => rw [hm] at this; simp [MethodOutcome.isDenial] at this
      | raised e => rw [hm] at this; exact ⟨e, rfl, this⟩
    have hrec := ih (by omega) false
    rw [← ha] at hrec
    by_cases hreuse : (allowOld && env.wouldReuse (20 - (f + 1) + 1)) = true
    · have hO : allowOld = true := by cases allowOld <;> simp_all
      have hW : env.wouldReuse (20 - (f + 1) + 1) = true := by
        cases hw : env.wouldReuse (20 - (f + 1) + 1) <;> simp_all
      subst hO
      rw [accessLoop_denied_reused env (f + 1) (20 - (f + 1)) e (by omega) he hd hW]
      exact hrec
    · rw [accessLoop_denied_fresh_accept env (f + 1) (20 - (f + 1)) allowOld e
        (by omega) he hd (by simp_all) (hyes _)]
      exact hrec

/-- Claim C2: with an authenticator requiring authentication, a denial on
a reused session causes exactly one retry with session reuse disabled and
no prompt (first conjunct); a denial on a fresh session triggers exactly
one yes/no prompt, and declining terminates the call with `DownloadError`
(second conjunct); accepting re-enters credentials and retries fresh
(third conjunct). -/
theorem access_denied_retry_then_prompt (env : AccessEnv) (fuel attempt : Nat)
    (allowOld : Bool) (e : Exc) (h20 : attempt + 1 ≤ 20)
    (hm : env.methodResult (attempt + 1) = .raised e) (hd : e.isAccessDenied = true) :
    (allowOld = true → env.wouldReuse (attempt + 1) = true →
      accessLoop env (some true) (fuel + 1) attempt allowOld
        = ((accessLoop env (some true) fuel (attempt + 1) false).1,
           [AEvent.establish true, AEvent.invoke (attempt + 1)]
             ++ (accessLoop env (some true) fuel (attempt + 1) false).2)) ∧
    ((allowOld && env.wouldReuse (attempt + 1)) = false →
      env.yesnoAnswer (attempt + 1) = false →
      accessLoop env (some true) (fuel + 1) attempt allowOld
        = (.error (.downloadError (failedCredsMsg env.url)),
           [AEvent.establish false, AEvent.invoke (attempt + 1),
            AEvent.prompt false])) ∧
    ((allowOld && env.wouldReuse (attempt + 1)) = false →
      env.yesnoAnswer (attempt + 1) = true →
      accessLoop env (some true) (fuel + 1) attempt allowOld
        = ((accessLoop env (some true) fuel (attempt + 1) false).1,
           [AEvent.establish false, AEvent.invoke (attempt + 1),
            AEvent.prompt true, AEvent.enterNew]
             ++ (accessLoop env (some true) fuel (attempt + 1) false).2)) := by
  refine ⟨fun hO hW => ?_, fun hf hn => ?_, fun hf hy => ?_⟩
  · subst hO
    exact accessLoop_denied_reused env fuel attempt e h20 hm hd hW
  · exact accessLoop_denied_fresh_decline env fuel attempt allowOld e h20 hm hd hf hn
  · exact accessLoop_denied_fresh_accept env fuel attempt allowOld e h20 hm hd hf hy

theorem access_denied_retry_then_prompt_witness :
    (BaseDownloader._access ⟨some ⟨"c"⟩, some ⟨some true, false⟩⟩
        ⟨"u", fun _ => true,
         fun a => if a = 1 then .raised (.accessDenied "d") else .success 7,
         fun _ => false⟩ true
      = (.ok 7, [AEvent.establish true, AEvent.invoke 1,
                 AEvent.establish false, AEvent.invoke 2])) ∧
    (BaseDownloader._access ⟨some ⟨"c"⟩, some ⟨some true, false⟩⟩
        ⟨"u", fun _ => true,
         fun a => if a = 1 then .raised (.accessDenied "d") else .success 7,
         fun _ => false⟩ false
      = (.error (.downloadError (failedCredsMsg "u")),
         [AEvent.establish false, AEvent.invoke 1, AEvent.prompt false])) :=
  ⟨(access_denied_retry_then_prompt
      ⟨"u", fun _ => true,
       fun a => if a = 1 then .raised (.accessDenied "d") else .success 7,
       fun _ => false⟩ 20 0 true (.accessDenied "d") (by decide) rfl rfl).1 rfl rfl,
   (access_denied_retry_then_prompt
      ⟨"u", fun _ => true,
       fun a => if a = 1 then .raised (.accessDenied "d") else .success 7,
       fun _ => false⟩ 20 0 false (.accessDenied "d") (by decide) rfl rfl).2.1 rfl rfl⟩

/-- Claim C3: an attached authenticator with unknown (`None`)
`requires_authentication`: an `AccessDeniedError` from the operation makes
the call raise the unconfigured-provider `AccessDeniedError`, with no
retry and no prompt (the trace holds a single session/invoke pair). -/
theorem access_unknown_requirement (cred : Option Credential) (fr : Bool)
    (env : AccessEnv) (allowOld : Bool) (e : Exc)
    (hm : env.methodResult 1 = .raised e) (hd : e.isAccessDenied = true) :
    BaseDownloader._access ⟨cred, some ⟨none, fr⟩⟩ env allowOld
      = (.error (.accessDenied (unconfiguredMsg env.url)),
         [AEvent.establish (allowOld && env.wouldReuse 1), AEvent.invoke 1]) := by
  show accessLoop env none (20 + 1) 0 allowOld = _
  exact accessLoop_denied_unknown env 20 0 allowOld e (by omega) hm hd

theorem access_unknown_requirement_witness :
    BaseDownloader._access ⟨none, some ⟨none, true⟩⟩
        ⟨"u", fun _ => false, fun _ => .raised (.accessDenied "d"), fun _ => true⟩ true
      = (.error (.accessDenied (unconfiguredMsg "u")),
         [AEvent.establish false, AEvent.invoke 1]) :=
  access_unknown_requirement none true
    ⟨"u", fun _ => false, fun _ => .raised (.accessDenied "d"), fun _ => true⟩
    true (.accessDenied "d") rfl rfl

/-- Claim C4: an attached authenticator with `requires_authentication =
False`: an `AccessDeniedError` from the operation terminates the call
immediately with the contract-violation `DownloadError`, with no retry and
no prompt. -/
theorem access_false_requirement (cred : Option Credential) (fr : Bool)
    (env : AccessEnv) (allowOld : Bool) (e : Exc)
    (hm : env.methodResult 1 = .raised e) (hd : e.isAccessDenied = true) :
    BaseDownloader._access ⟨cred, some ⟨some false, fr⟩⟩ env allowOld
      = (.error (.downloadError (mustBeAvailableMsg env.url)),
         [AEvent.establish (allowOld && env.wouldReuse 1), AEvent.invoke 1]) := by
  show accessLoop env (some false) (20 + 1) 0 allowOld = _
  exact accessLoop_denied_false env 20 0 allowOld e (by omega) hm hd

theorem access_false_requirement_witness :
    BaseDownloader._access ⟨none, some ⟨some false, true⟩⟩
        ⟨"u", fun _ => true, fun _ => .raised (.accessDenied "d"), fun _ => true⟩ true
      = (.error (.downloadError (mustBeAvailableMsg "u")),
         [AEvent.establish true, AEvent.invoke 1]) :=
  access_false_requirement none true
    ⟨"u", fun _ => true, fun _ => .raised (.accessDenied "d"), fun _ => true⟩
    true (.accessDenied "d") rfl rfl

/-- Claim C5: every `_access` call invokes the wrapped operation at most
20 times; under an always-denying operation (with the user always
accepting the credential prompt, the one scenario that keeps retrying)
the loop terminates by raising the internal `RuntimeError` at the 21st
iteration; and that `RuntimeError` is not a `DownloadError`. -/
theorem access_attempt_cap (dl : BaseDownloader) (env : AccessEnv)
    (allowOld : Bool) :
    countInvokes (BaseDownloader._access dl env allowOld).2 ≤ 20 ∧
    ((∀ a, (env.methodResult a).isDenial = true) →
     (∀ a, env.yesnoAnswer a = true) →
     dl.needs_authentication = some true →
      (BaseDownloader._access dl env allowOld).1
        = .error (.runtimeError (iterMsg 21 env.url))) ∧
    Exc.isDownloadError (.runtimeError (iterMsg 21 env.url)) = false := by
  refine ⟨?_, ?_, rfl⟩
  · have h := countInvokes_accessLoop_le env dl.needs_authentication 21 0 allowOld
    simpa using h
  · intro hden hyes hna
    unfold BaseDownloader._access
    rw [hna]
    have h := accessLoop_alwaysDeny env hden hyes 20 (by omega) allowOld
    simpa using h

theorem access_attempt_cap_witness :
    (BaseDownloader._access ⟨some ⟨"c"⟩, some ⟨some true, false⟩⟩
        ⟨"u", fun _ => true, fun _ => .raised (.accessDenied "d"), fun _ => true⟩
        true).1
      = .error (.runtimeError (iterMsg 21 "u")) :=
  (access_attempt_cap ⟨some ⟨"c"⟩, some ⟨some true, false⟩⟩
      ⟨"u", fun _ => true, fun _ => .raised (.accessDenied "d"), fun _ => true⟩
      true).2.1 (fun _ => rfl) (fun _ => rfl) rfl

/-- Claim C9: constructing a downloader with an authenticator (explicit or
from the class default) but no credential raises `ValueError`; every
successfully constructed downloader satisfies authenticator-implies-
credential; and a constructed downloader with no credential can never
reach the credential re-entry branch (no `enterNew` event). -/
theorem init_authenticator_implies_credential (c : Option Credential)
    (a d : Option AuthSpec) :
    ((a.isSome ∨ d.isSome) → c = none →
      BaseDownloader.init c a d = .error (.valueError initValueErrorMsg)) ∧
    (∀ dl, BaseDownloader.init c a d = .ok dl →
      dl.authenticator.isSome = true → dl.credential.isSome = true) ∧
    (∀ dl env allowOld, BaseDownloader.init c a d = .ok dl → dl.credential = none →
      AEvent.enterNew ∉ (BaseDownloader._access dl env allowOld).2) := by
  refine ⟨?_, ?_, ?_⟩
  · rintro h rfl
    cases a with
    | some a0 => rfl
    | none =>
      cases d with
      | some d0 => rfl
      | none => simp at h
  · intro dl hok hsome
    cases a <;> cases d <;> cases c <;>
      simp only [BaseDownloader.init] at hok <;>
      first
        | (injection hok with h
           subst h
           simp_all)
        | simp at hok
  · intro dl env allowOld hok hcred
    have hna : dl.needs_authentication = none := by
      cases a <;> cases d <;> cases c <;>
        simp only [BaseDownloader.init] at hok <;>
        first
          | (injection hok with h
             subst h
             simp_all [BaseDownloader.needs_authentication])
          | simp at hok
    show AEvent.enterNew ∉ (accessLoop env dl.needs_authentication 21 0 allowOld).2
    rw [hna]
    exact accessLoop_unknown_no_enterNew env 21 0 allowOld

theorem init_authenticator_implies_credential_witness :
    BaseDownloader.init none (some ⟨some true, false⟩) none
      = .error (.valueError initValueErrorMsg) ∧
    AEvent.enterNew ∉ (BaseDownloader._access ⟨none, none⟩
        ⟨"u", fun _ => true, fun _ => .raised (.accessDenied "d"),
         fun _ => true⟩ true).2 :=
  ⟨(init_authenticator_implies_credential none (some ⟨some true, false⟩) none).1
      (Or.inl rfl) rfl,
   (init_authenticator_implies_credential none none none).2.2 ⟨none, none⟩
      ⟨"u", fun _ => true, fun _ => .raised (.accessDenied "d"), fun _ => true⟩
      true rfl rfl⟩

/-- Claim C10: an access call with no authenticator behaves exactly like
one whose authenticator has unknown `requires_authentication` (identical
runs for every environment); in particular a denial raises the
unconfigured-provider `AccessDeniedError` with no prompt and no retry. -/
theorem access_no_authenticator_like_unknown (cred cred2 : Option Credential)
    (fr : Bool) (env : AccessEnv) (allowOld : Bool) :
    BaseDownloader._access ⟨cred, none⟩ env allowOld
      = BaseDownloader._access ⟨cred2, some ⟨none, fr⟩⟩ env allowOld ∧
    (∀ e, env.methodResult 1 = .raised e → e.isAccessDenied = true →
      BaseDownloader._access ⟨cred, none⟩ env allowOld
        = (.error (.accessDenied (unconfiguredMsg env.url)),
           [AEvent.establish (allowOld && env.wouldReuse 1), AEvent.invoke 1])) := by
  constructor
  · rfl
  · intro e hm hd
    show accessLoop env none (20 + 1) 0 allowOld = _
    exact accessLoop_denied_unknown env 20 0 allowOld e (by omega) hm hd

theorem access_no_authenticator_like_unknown_witness :
    BaseDownloader._access ⟨some ⟨"c"⟩, none⟩
        ⟨"u", fun _ => true, fun _ => .raised (.accessDenied "d"), fun _ => true⟩ true
      = (.error (.accessDenied (unconfiguredMsg "u")),
         [AEvent.establish true, AEvent.invoke 1]) :=
  (access_no_authenticator_like_unknown (some ⟨"c"⟩) none false
      ⟨"u", fun _ => true, fun _ => .raised (.accessDenied "d"), fun _ => true⟩
      true).2 (.accessDenied "d") rfl rfl

theorem download_atomic_commit_witness :
    (fileExists (BaseDownloader._download ⟨none, none⟩
        ⟨.ok ⟨"hello", .ok, some 5, "data.bin"⟩, none, []⟩ none false []).2.1
        "data.bin" = true ∧
     fileExists (BaseDownloader._download ⟨none, none⟩
        ⟨.ok ⟨"hello", .ok, some 5, "data.bin"⟩, none, []⟩ none false []).2.1
        (_get_temp_download_filename "data.bin") = false) ∧
    (fsLookup (BaseDownloader._download ⟨none, none⟩
        ⟨.ok ⟨"part", .raised (.otherError "boom"), some 5, "data.bin"⟩, none, []⟩
        none false []).2.1 (resolveFilepath [] none "data.bin")
      = fsLookup [] (resolveFilepath [] none "data.bin") ∧
     fileExists (BaseDownloader._download ⟨none, none⟩
        ⟨.ok ⟨"part", .raised (.otherError "boom"), some 5, "data.bin"⟩, none, []⟩
        none false []).2.1
        (_get_temp_download_filename (resolveFilepath [] none "data.bin")) = false) :=
  ⟨(download_atomic_commit ⟨none, none⟩
      ⟨.ok ⟨"hello", .ok, some 5, "data.bin"⟩, none, []⟩ none false []).1
      "data.bin" rfl,
   (download_atomic_commit ⟨none, none⟩
      ⟨.ok ⟨"part", .raised (.otherError "boom"), some 5, "data.bin"⟩, none, []⟩
      none false []).2 ⟨"part", .raised (.otherError "boom"), some 5, "data.bin"⟩
      rfl rfl (.downloadError "") rfl⟩

/-- Counterexample to claim C6 as stated: `target_size = 0` is known and
differs from the 5 bytes downloaded, yet `_download` succeeds — the
source guard `if target_size and target_size != downloaded_size` treats a
zero expected size like an unknown one (Python truthiness). -/
theorem download_size_mismatch_counterexample :
    (BaseDownloader._download ⟨none, none⟩
        ⟨.ok ⟨"hello", .ok, some 0, "data.bin"⟩, none, []⟩ none false []).1
      = .ok "data.bin" ∧
    (0 : Nat) ≠ "hello".length :=
  ⟨rfl, by decide⟩

/-- Claim C6 (amended): when `target_size` is known and nonzero and
differs from the number of bytes written to the temp file, the try body
raises the size-mismatch `DownloadError` whose message reports both the
downloaded and the expected size, and the download fails (the exception
propagated out of `_download` being the generic re-raised
`DownloadError`); a zero expected size is skipped by the truthiness
guard. -/
theorem download_size_mismatch (dl : BaseDownloader) (env : DownloadEnv)
    (path : Option String) (overwrite : Bool) (fs : FS) (d : DownloadDetails)
    (t : Nat) (hdet : env.details = .ok d)
    (hex : (fileExists fs (resolveFilepath env.dirs path d.url_filename)
        && !overwrite) = false)
    (hfetch : d.fetchOutcome = .ok)
    (hcheck : inbandCheck dl.authenticator d.written.length env.authCheck = none)
    (ht : d.target_size = some t) (ht0 : t ≠ 0) (hne : t ≠ d.written.length) :
    (downloadTryBody dl.authenticator env d
        (resolveFilepath env.dirs path d.url_filename)
        (_get_temp_download_filename (resolveFilepath env.dirs path d.url_filename))
        fs).1
      = .error (.downloadError (sizeMismatchMsg d.written.length t)) ∧
    (BaseDownloader._download dl env path overwrite fs).1
      = .error (.downloadError "") := by
  have hbody : (downloadTryBody dl.authenticator env d
      (resolveFilepath env.dirs path d.url_filename)
      (_get_temp_download_filename (resolveFilepath env.dirs path d.url_filename))
      fs).1
      = .error (.downloadError (sizeMismatchMsg d.written.length t)) := by
    simp [downloadTryBody, hfetch, hcheck, ht, ht0, hne]
  refine ⟨hbody, ?_⟩
  simp [BaseDownloader._download, hdet, hex, hbody, Exc.isAccessDenied]

theorem download_size_mismatch_witness :
    (downloadTryBody none
        ⟨.ok ⟨"hello", .ok, some 100, "data.bin"⟩, none, []⟩
        ⟨"hello", .ok, some 100, "data.bin"⟩
        (resolveFilepath [] none "data.bin")
        (_get_temp_download_filename (resolveFilepath [] none "data.bin")) []).1
      = .error (.downloadError (sizeMismatchMsg 5 100)) ∧
    (BaseDownloader._download ⟨none, none⟩
        ⟨.ok ⟨"hello", .ok, some 100, "data.bin"⟩, none, []⟩ none false []).1
      = .error (.downloadError "") :=
  download_size_mismatch ⟨none, none⟩
    ⟨.ok ⟨"hello", .ok, some 100, "data.bin"⟩, none, []⟩ none false []
    ⟨"hello", .ok, some 100, "data.bin"⟩ 100 rfl rfl rfl rfl rfl
    (by decide) (by decide)

/-- Counterexample to claim C7 as stated: with `overwrite = false` and the
destination already present, `_download` does raise the already-exists
`DownloadError`, but only after the `_get_download_details` collaborator
— the protocol-specific step that contacts the source — has been invoked:
the event trace is `[detailsRequested]`, not empty, so the existence
check does not precede all network activity. -/
theorem download_exists_precheck_counterexample :
    (BaseDownloader._download ⟨none, none⟩
        ⟨.ok ⟨"hello", .ok, some 5, "data.bin"⟩, none, []⟩ none false
        [("data.bin", "old")]).2.2 = [DEvent.detailsRequested] ∧
    ¬ ((BaseDownloader._download ⟨none, none⟩
        ⟨.ok ⟨"hello", .ok, some 5, "data.bin"⟩, none, []⟩ none false
        [("data.bin", "old")]).2.2 = []) ∧
    (BaseDownloader._download ⟨none, none⟩
        ⟨.ok ⟨"hello", .ok, some 5, "data.bin"⟩, none, []⟩ none false
        [("data.bin", "old")]).1
      = .error (.downloadError (alreadyExistsMsg "data.bin")) :=
  ⟨rfl, by decide, rfl⟩

/-- Claim C7 (amended): with `overwrite = false` and an existing resolved
destination, `_download` raises the already-exists `DownloadError`, leaves
the filesystem untouched, and never invokes the byte-transfer fetch — but
the details resolution (which precedes the existence check in the source)
has already been requested. -/
theorem download_exists_no_fetch (dl : BaseDownloader) (env : DownloadEnv)
    (path : Option String) (fs : FS) (d : DownloadDetails)
    (hdet : env.details = .ok d)
    (hex : fileExists fs (resolveFilepath env.dirs path d.url_filename) = true) :
    (BaseDownloader._download dl env path false fs).1
      = .error (.downloadError
          (alreadyExistsMsg (resolveFilepath env.dirs path d.url_filename))) ∧
    (BaseDownloader._download dl env path false fs).2.1 = fs ∧
    DEvent.fetchInvoked ∉ (BaseDownloader._download dl env path false fs).2.2 := by
  refine ⟨?_, ?_, ?_⟩ <;> simp [BaseDownloader._download, hdet, hex]

theorem download_exists_no_fetch_witness :
    (BaseDownloader._download ⟨none, none⟩
        ⟨.ok ⟨"hello", .ok, some 5, "report.csv"⟩, none, []⟩ none false
        [("report.csv", "old")]).1
      = .error (.downloadError (alreadyExistsMsg "report.csv")) ∧
    DEvent.fetchInvoked ∉ (BaseDownloader._download ⟨none, none⟩
        ⟨.ok ⟨"hello", .ok, some 5, "report.csv"⟩, none, []⟩ none false
        [("report.csv", "old")]).2.2 :=
  ⟨(download_exists_no_fetch ⟨none, none⟩
      ⟨.ok ⟨"hello", .ok, some 5, "report.csv"⟩, none, []⟩ none
      [("report.csv", "old")] ⟨"hello", .ok, some 5, "report.csv"⟩ rfl rfl).1,
   (download_exists_no_fetch ⟨none, none⟩
      ⟨.ok ⟨"hello", .ok, some 5, "report.csv"⟩, none, []⟩ none
      [("report.csv", "old")] ⟨"hello", .ok, some 5, "report.csv"⟩ rfl rfl).2.2⟩

/-- Claim C8: an `AccessDeniedError` raised inside the fetch/validation
try block propagates unwrapped out of `_download` (same message), while
every other exception raised in that phase is replaced by the generic
bare `DownloadError` before propagating. -/
theorem download_exception_wrapping (dl : BaseDownloader) (env : DownloadEnv)
    (path : Option String) (overwrite : Bool) (fs : FS) (d : DownloadDetails)
    (hdet : env.details = .ok d)
    (hex : (fileExists fs (resolveFilepath env.dirs path d.url_filename)
        && !overwrite) = false) :
    (∀ m, (downloadTryBody dl.authenticator env d
        (resolveFilepath env.dirs path d.url_filename)
        (_get_temp_download_filename (resolveFilepath env.dirs path d.url_filename))
        fs).1 = .error (.accessDenied m) →
      (BaseDownloader._download dl env path overwrite fs).1
        = .error (.accessDenied m)) ∧
    (∀ e, (downloadTryBody dl.authenticator env d
        (resolveFilepath env.dirs path d.url_filename)
        (_get_temp_download_filename (resolveFilepath env.dirs path d.url_filename))
        fs).1 = .error e → e.isAccessDenied = false →
      (BaseDownloader._download dl env path overwrite fs).1
        = .error (.downloadError "")) := by
  constructor
  · intro m hb
    simp [BaseDownloader._download, hdet, hex, hb, Exc.isAccessDenied]
  · intro e hb hnd
    simp [BaseDownloader._download, hdet, hex, hb, hnd]

theorem download_exception_wrapping_witness :
    (BaseDownloader._download ⟨none, none⟩
        ⟨.ok ⟨"x", .raised (.accessDenied "denied by provider"), none, "data.bin"⟩,
         none, []⟩ none false []).1
      = .error (.accessDenied "denied by provider") ∧
    (BaseDownloader._download ⟨none, none⟩
        ⟨.ok ⟨"x", .raised (.otherError "boom"), none, "data.bin"⟩,
         none, []⟩ none false []).1
      = .error (.downloadError "") :=
  ⟨(download_exception_wrapping ⟨none, none⟩
      ⟨.ok ⟨"x", .raised (.accessDenied "denied by provider"), none, "data.bin"⟩,
       none, []⟩ none false []
      ⟨"x", .raised (.accessDenied "denied by provider"), none, "data.bin"⟩
      rfl rfl).1 "denied by provider" rfl,
   (download_exception_wrapping ⟨none, none⟩
      ⟨.ok ⟨"x", .raised (.otherError "boom"), none, "data.bin"⟩,
       none, []⟩ none false []
      ⟨"x", .raised (.otherError "boom"), none, "data.bin"⟩
      rfl rfl).2 (.otherError "boom") rfl rfl⟩

end Datalad
